import Mathlib

/-
  Verification of the gin-metrics registry core (src/ginmetrics/types.go).

  Shallow embedding conventions:
  * Go `MetricType` is an `int`; we model it as `Int`, with the iota
    constants None = 0, Counter = 1, Gauge = 2, Histogram = 3, Summary = 4.
    Out-of-range kind values are representable, as in Go.
  * Go `float64` values are never computed with in this core (bucket
    boundaries and objectives are passed through verbatim), so we model
    them as `Rat`, which keeps every definition kernel-executable.
  * Go `map[string]*Metric` is modelled as an association list
    `List (String × Metric)` with `List.lookup`; `AddMetric` only inserts
    a key after checking it is absent, so cons-insertion is faithful.
  * Go `map[float64]float64` (summary objectives) is modelled as
    `List (Rat × Rat)`; only its emptiness is ever inspected by this core.
  * The prometheus collector constructors (NewCounterVec, ...) are external
    collaborators; we record exactly the data the code passes to them in
    the inductive `MetricVec`.  `prometheus.MustRegister` never returns an
    error (it panics on exporter-level rejection, outside this core), so
    the success path models it as a no-op.
  * Package-level mutable state: the `monitor` singleton pointer is
    threaded as an `Option Monitor`; the seven mutable metric-name string
    variables (declared in the middleware file of this package) are
    threaded as a `NameConstants` record.  Methods that read or write that
    state take it and return it explicitly.
  * Errors built with `errors.Errorf` are modelled by the inductive
    `GoErr`, one constructor per distinct format string in the source,
    carrying the formatted-in arguments.
-/

namespace GinMetrics

/-- Go: `type MetricType int`. -/
abbrev MetricType := Int

/-- Go: `None MetricType = iota` (value 0). -/
def None : MetricType := 0

/-- Go: `Counter` (iota value 1). -/
def Counter : MetricType := 1

/-- Go: `Gauge` (iota value 2). -/
def Gauge : MetricType := 2

/-- Go: `Histogram` (iota value 3). -/
def Histogram : MetricType := 3

/-- Go: `Summary` (iota value 4). -/
def Summary : MetricType := 4

/-- Go: `defaultMetricPath = "/debug/metrics"`. -/
def defaultMetricPath : String := "/debug/metrics"

/-- Go: `defaultSlowTime = int32(5)`. -/
def defaultSlowTime : Int := 5

/-- Go: `defaultExcludePaths = []string\x7b\x7d`. -/
def defaultExcludePaths : List String := []

/-- Go: `defaultDuration = []float64\x7b0.1, 0.3, 1.2, 5, 10\x7d`. -/
def defaultDuration : List Rat := [0.1, 0.3, 1.2, 5, 10]

/-- The data the code hands to the underlying prometheus vector
constructor: which constructor was called and with which arguments. -/
inductive MetricVec where
  | counterVec (name help : String) (labels : List String)
  | gaugeVec (name help : String) (labels : List String)
  | histogramVec (name help : String) (buckets : List Rat) (labels : List String)
  | summaryVec (name help : String) (objectives : List (Rat × Rat)) (labels : List String)
  deriving DecidableEq

/-- One constructor per `errors.Errorf` format string in types.go:
`alreadyExists` for the duplicate-name message, `emptyName` for the
empty-name message, `typeNotExisted` for the unknown-metric-type message
(carrying the numeric kind value that Go formats with %d),
`missingBucketParam` and `missingObjectivesParam` for the two handler
messages (each carrying the metric name formatted with %s). -/
inductive GoErr where
  | alreadyExists (name : String)
  | emptyName
  | typeNotExisted (t : MetricType)
  | missingBucketParam (name : String)
  | missingObjectivesParam (name : String)
  deriving DecidableEq

/-- Go struct `Metric`.  The Go field `Type` is a Lean keyword, so it is
named `MType` here.  Field defaults are the Go zero values, so `\x7b\x7d`
is the zero-value `&Metric\x7b\x7d`. -/
structure Metric where
  MType : MetricType := None
  Name : String := ""
  Description : String := ""
  Labels : List String := []
  Buckets : List Rat := []
  Objectives : List (Rat × Rat) := []
  vec : Option MetricVec := none
  deriving DecidableEq

/-- Go struct `Monitor`. -/
structure Monitor where
  slowTime : Int
  metricPath : String
  excludePaths : List String
  reqDuration : List Rat
  metrics : List (String × Metric)
  metadata : List (String × String)
  deriving DecidableEq

/-- The seven package-level mutable metric-name string variables rewritten
by the two name setters (declared outside types.go in the same package). -/
structure NameConstants where
  metricRequestTotal : String
  metricRequestUVTotal : String
  metricURIRequestTotal : String
  metricRequestBody : String
  metricResponseBody : String
  metricRequestDuration : String
  metricSlowRequest : String
  deriving DecidableEq

/-- Go `GetMonitor`: lazily constructs the singleton on first call
(global pointer `monitor` threaded as the `Option Monitor` argument and
second component of the result). -/
def GetMonitor (monitor : Option Monitor) : Monitor × Option Monitor :=
  match monitor with
  | .none =>
      let m : Monitor :=
        { metricPath := defaultMetricPath
          slowTime := defaultSlowTime
          excludePaths := defaultExcludePaths
          reqDuration := defaultDuration
          metrics := []
          metadata := [] }
      (m, .some m)
  | .some m => (m, .some m)

/-- Go `GetMetric`: exact-name lookup, zero-value `Metric` when absent. -/
def GetMetric (m : Monitor) (name : String) : Metric :=
  match m.metrics.lookup name with
  | .some metric => metric
  | .none => {}

/-- Go `SetMetricPath`. -/
def SetMetricPath (m : Monitor) (path : String) : Monitor :=
  { m with metricPath := path }

/-- Go `SetExcludePaths`. -/
def SetExcludePaths (m : Monitor) (paths : List String) : Monitor :=
  { m with excludePaths := paths }

/-- Go `SetSlowTime`. -/
def SetSlowTime (m : Monitor) (slowTime : Int) : Monitor :=
  { m with slowTime := slowTime }

/-- Go `SetDuration`. -/
def SetDuration (m : Monitor) (duration : List Rat) : Monitor :=
  { m with reqDuration := duration }

/-- Go `SetMetricPrefix`: the receiver `m` is not touched by the body;
each of the seven package-level name variables is reassigned to the
argument concatenated in front of its current value. -/
def SetMetricPrefix (m : Monitor) (c : NameConstants) (p : String) :
    Monitor × NameConstants :=
  (m,
    { metricRequestTotal := p ++ c.metricRequestTotal
      metricRequestUVTotal := p ++ c.metricRequestUVTotal
      metricURIRequestTotal := p ++ c.metricURIRequestTotal
      metricRequestBody := p ++ c.metricRequestBody
      metricResponseBody := p ++ c.metricResponseBody
      metricRequestDuration := p ++ c.metricRequestDuration
      metricSlowRequest := p ++ c.metricSlowRequest })

/-- Go `SetMetricSuffix`: symmetric, appends the argument to each of the
seven package-level name variables. -/
def SetMetricSuffix (m : Monitor) (c : NameConstants) (s : String) :
    Monitor × NameConstants :=
  (m,
    { metricRequestTotal := c.metricRequestTotal ++ s
      metricRequestUVTotal := c.metricRequestUVTotal ++ s
      metricURIRequestTotal := c.metricURIRequestTotal ++ s
      metricRequestBody := c.metricRequestBody ++ s
      metricResponseBody := c.metricResponseBody ++ s
      metricRequestDuration := c.metricRequestDuration ++ s
      metricSlowRequest := c.metricSlowRequest ++ s })

/-- Go `counterHandler`: never fails; attaches a counter vector built from
name, help and labels. -/
def counterHandler (metric : Metric) : Except GoErr Metric :=
  .ok { metric with
          vec := .some (.counterVec metric.Name metric.Description metric.Labels) }

/-- Go `gaugeHandler`: never fails; attaches a gauge vector. -/
def gaugeHandler (metric : Metric) : Except GoErr Metric :=
  .ok { metric with
          vec := .some (.gaugeVec metric.Name metric.Description metric.Labels) }

/-- Go `histogramHandler`: rejects an empty bucket list with the
missing-bucket-param error, otherwise attaches a histogram vector. -/
def histogramHandler (metric : Metric) : Except GoErr Metric :=
  if metric.Buckets.length = 0 then
    .error (.missingBucketParam metric.Name)
  else
    .ok { metric with
            vec := .some (.histogramVec metric.Name metric.Description
                            metric.Buckets metric.Labels) }

/-- Go `summaryHandler`: rejects an empty objectives map with the
missing-objectives-param error, otherwise attaches a summary vector. -/
def summaryHandler (metric : Metric) : Except GoErr Metric :=
  if metric.Objectives.length = 0 then
    .error (.missingObjectivesParam metric.Name)
  else
    .ok { metric with
            vec := .some (.summaryVec metric.Name metric.Description
                            metric.Objectives metric.Labels) }

/-- Go `promTypeHandler`: the dispatch map from kind to handler; lookup
fails (returns `none`) for `None` and every out-of-range kind value. -/
def promTypeHandler (t : MetricType) : Option (Metric → Except GoErr Metric) :=
  if t = Counter then .some counterHandler
  else if t = Gauge then .some gaugeHandler
  else if t = Histogram then .some histogramHandler
  else if t = Summary then .some summaryHandler
  else .none

/-- Go `AddMetric`.  Checks duplicate name, then empty name, then
dispatches on the kind.  When the handler succeeds the collector is
registered with the exporter (`MustRegister`, modelled as a no-op since it
never returns an error) and the metric is stored under its name.  Both the
failed-handler case and the failed-dispatch case fall through to the same
final `errors.Errorf` with the unknown-metric-type message: the handler
error value is dropped on the floor. -/
def AddMetric (m : Monitor) (metric : Metric) : Except GoErr Unit × Monitor :=
  if (m.metrics.lookup metric.Name).isSome then
    (.error (.alreadyExists metric.Name), m)
  else if metric.Name = "" then
    (.error .emptyName, m)
  else
    match promTypeHandler metric.MType with
    | .some f =>
        match f metric with
        | .ok registered =>
            (.ok (), { m with metrics := (metric.Name, registered) :: m.metrics })
        | .error _ => (.error (.typeNotExisted metric.MType), m)
    | .none => (.error (.typeNotExisted metric.MType), m)

/-- The monitor produced by the first `GetMonitor` call of the process. -/
def initialMonitor : Monitor := (GetMonitor .none).fst

/-- One call into the registry API that can touch a `Monitor` value (the
two name setters are included even though their receiver is untouched). -/
inductive Op where
  | add (metric : Metric)
  | setPath (p : String)
  | setExclude (ps : List String)
  | setSlow (t : Int)
  | setDur (d : List Rat)
  | setPre (c : NameConstants) (p : String)
  | setSuf (c : NameConstants) (s : String)

/-- Effect of one API call on the monitor. -/
def applyOp (m : Monitor) : Op → Monitor
  | .add metric => (AddMetric m metric).snd
  | .setPath p => SetMetricPath m p
  | .setExclude ps => SetExcludePaths m ps
  | .setSlow t => SetSlowTime m t
  | .setDur d => SetDuration m d
  | .setPre c p => ( SetMetricPrefix m c p).fst
  | .setSuf c s => ( SetMetricSuffix m c s).fst

/-- A reachable monitor state: the fresh singleton followed by any
sequence of API calls. -/
def runOps (ops : List Op) : Monitor := ops.foldl applyOp initialMonitor

/-- The seven package-level name strings, listed as a value, to state the
effect of the two name setters on all of them at once. -/
def namesList (c : NameConstants) : List String :=
  [c.metricRequestTotal, c.metricRequestUVTotal, c.metricURIRequestTotal,
   c.metricRequestBody, c.metricResponseBody, c.metricRequestDuration,
   c.metricSlowRequest]

/-- C4: the metric-name setters rewrite each of the seven well-known name
constants: prepending composes with the most recent argument outermost
(calling with a then b turns each current value x into b ++ (a ++ x)),
calling twice with the same argument doubles it, and the suffix setter is
the symmetric appending operation. -/
theorem C4_name_setters_compound (m : Monitor) (c : NameConstants) (a b : String) :
    namesList ( SetMetricPrefix ( SetMetricPrefix m c a).fst
                  ( SetMetricPrefix m c a).snd b).snd
        = (namesList c).map (fun x => b ++ (a ++ x)) ∧
    namesList ( SetMetricPrefix ( SetMetricPrefix m c a).fst
                  ( SetMetricPrefix m c a).snd a).snd
        = (namesList c).map (fun x => a ++ (a ++ x)) ∧
    namesList ( SetMetricSuffix ( SetMetricSuffix m c a).fst
                  ( SetMetricSuffix m c a).snd b).snd
        = (namesList c).map (fun x => (x ++ a) ++ b) :=
  ⟨rfl, rfl, rfl⟩

/-- C7: the first `GetMonitor` call constructs the singleton with the
documented defaults (path /debug/metrics, slow time 5, no excluded paths,
duration buckets 0.1, 0.3, 1.2, 5, 10, empty metric and metadata maps) and
stores it; every later call returns the stored instance unchanged. -/
theorem C7_singleton_defaults :
    (GetMonitor .none).fst.metricPath = "/debug/metrics" ∧
    (GetMonitor .none).fst.slowTime = 5 ∧
    (GetMonitor .none).fst.excludePaths = [] ∧
    (GetMonitor .none).fst.reqDuration = [0.1, 0.3, 1.2, 5, 10] ∧
    (GetMonitor .none).fst.metrics = [] ∧
    (GetMonitor .none).fst.metadata = [] ∧
    (GetMonitor .none).snd = .some (GetMonitor .none).fst ∧
    (∀ m : Monitor, GetMonitor (.some m) = (m, .some m)) :=
  ⟨rfl, rfl, rfl, rfl, rfl, rfl, rfl, fun _ => rfl⟩

/-- C3: `GetMetric` never fails: a registered name returns its registered
metric, an absent name returns the zero-value sentinel (kind `None`, empty
name, no collector handle) rather than an error. -/
theorem C3_getMetric_total (m : Monitor) (name : String) :
    (∀ x, m.metrics.lookup name = .some x → GetMetric m name = x) ∧
    (m.metrics.lookup name = .none →
        GetMetric m name
          = { MType := None, Name := "", Description := "", Labels := [],
              Buckets := [], Objectives := [], vec := .none }) := by
  constructor
  · intro x hx
    simp [GetMetric, hx]
  · intro hx
    simp [GetMetric, hx]

/-- Witness for C3 at a concrete registry: a present key returns its
entry, an absent key returns the sentinel. -/
theorem C3_getMetric_total_witness :
    GetMetric { slowTime := 5, metricPath := "", excludePaths := [],
                reqDuration := [],
                metrics := [("c", { MType := Counter, Name := "c" })],
                metadata := [] } "c"
        = { MType := Counter, Name := "c" } ∧
    GetMetric { slowTime := 5, metricPath := "", excludePaths := [],
                reqDuration := [], metrics := [], metadata := [] } "missing"
        = { MType := None, Name := "", Description := "", Labels := [],
            Buckets := [], Objectives := [], vec := .none } :=
  ⟨(C3_getMetric_total _ "c").1 _ rfl, (C3_getMetric_total _ "missing").2 rfl⟩

/-- C10: each configuration setter changes only its designated Monitor
field; the two name setters leave the Monitor (in particular the metrics
registry and its keys) entirely unchanged. -/
theorem C10_setter_frame (m : Monitor) (c : NameConstants) (path q : String)
    (ps : List String) (t : Int) (d : List Rat) :
    ((SetMetricPath m path).slowTime = m.slowTime ∧
     (SetMetricPath m path).excludePaths = m.excludePaths ∧
     (SetMetricPath m path).reqDuration = m.reqDuration ∧
     (SetMetricPath m path).metrics = m.metrics ∧
     (SetMetricPath m path).metadata = m.metadata) ∧
    ((SetExcludePaths m ps).metricPath = m.metricPath ∧
     (SetExcludePaths m ps).slowTime = m.slowTime ∧
     (SetExcludePaths m ps).reqDuration = m.reqDuration ∧
     (SetExcludePaths m ps).metrics = m.metrics ∧
     (SetExcludePaths m ps).metadata = m.metadata) ∧
    ((SetSlowTime m t).metricPath = m.metricPath ∧
     (SetSlowTime m t).excludePaths = m.excludePaths ∧
     (SetSlowTime m t).reqDuration = m.reqDuration ∧
     (SetSlowTime m t).metrics = m.metrics ∧
     (SetSlowTime m t).metadata = m.metadata) ∧
    ((SetDuration m d).metricPath = m.metricPath ∧
     (SetDuration m d).slowTime = m.slowTime ∧
     (SetDuration m d).excludePaths = m.excludePaths ∧
     (SetDuration m d).metrics = m.metrics ∧
     (SetDuration m d).metadata = m.metadata) ∧
    ( SetMetricPrefix m c q).fst = m ∧
    ( SetMetricSuffix m c q).fst = m ∧
    (∀ n, GetMetric (SetMetricPath m path) n = GetMetric m n) ∧
    (∀ n, GetMetric ( SetMetricPrefix m c q).fst n = GetMetric m n) :=
  ⟨⟨rfl, rfl, rfl, rfl, rfl⟩, ⟨rfl, rfl, rfl, rfl, rfl⟩,
   ⟨rfl, rfl, rfl, rfl, rfl⟩, ⟨rfl, rfl, rfl, rfl, rfl⟩,
   rfl, rfl, fun _ => rfl, fun _ => rfl⟩

/-- C8: a non-empty, unregistered name with a kind outside the four
concrete kinds (including the `None` sentinel) is rejected with the
unknown-metric-type error carrying the kind value, and the registry is
unchanged. -/
theorem C8_unknown_type (m : Monitor) (metric : Metric)
    (hname : metric.Name ≠ "")
    (habs : m.metrics.lookup metric.Name = .none)
    (ht : metric.MType ≠ Counter ∧ metric.MType ≠ Gauge ∧
          metric.MType ≠ Histogram ∧ metric.MType ≠ Summary) :
    AddMetric m metric = (.error (.typeNotExisted metric.MType), m) := by
  obtain ⟨h1, h2, h3, h4⟩ := ht
  simp [AddMetric, habs, hname, promTypeHandler, h1, h2, h3, h4]

/-- Witness for C8: adding a metric with the `None` kind to the fresh
monitor fails with the unknown-metric-type error carrying 0. -/
theorem C8_unknown_type_witness :
    AddMetric initialMonitor { MType := None, Name := "x" }
      = (.error (.typeNotExisted None), initialMonitor) :=
  C8_unknown_type initialMonitor { MType := None, Name := "x" }
    (by decide) rfl (by decide)

/-- Every handler reachable through the dispatch map attaches a collector
handle to the metric it returns on success. -/
theorem handler_sets_vec (t : MetricType) (f : Metric → Except GoErr Metric)
    (metric r : Metric) (hf : promTypeHandler t = .some f)
    (hr : f metric = .ok r) : r.vec.isSome = true := by
  have hcases : f = counterHandler ∨ f = gaugeHandler ∨
      f = histogramHandler ∨ f = summaryHandler := by
    unfold promTypeHandler at hf
    split_ifs at hf <;> simp_all
  rcases hcases with h | h | h | h <;> subst h
  · simp [counterHandler] at hr
    subst hr
    rfl
  · simp [gaugeHandler] at hr
    subst hr
    rfl
  · unfold histogramHandler at hr
    split at hr
    · simp at hr
    · simp at hr
      subst hr
      rfl
  · unfold summaryHandler at hr
    split at hr
    · simp at hr
    · simp at hr
      subst hr
      rfl

/-- When `AddMetric` fails, the monitor it returns is the input monitor. -/
theorem addMetric_error_frame (m : Monitor) (metric : Metric) (e : GoErr)
    (he : (AddMetric m metric).fst = .error e) :
    (AddMetric m metric).snd = m := by
  rcases metric with ⟨mt, name, desc, labels, buckets, objs, vec⟩
  by_cases hdup : (m.metrics.lookup name).isSome = true
  · simp [AddMetric, hdup]
  · by_cases hname : name = ""
    · subst hname
      simp [AddMetric, hdup]
    · cases hft : promTypeHandler mt with
      | none => simp [AddMetric, hdup, hname, hft]
      | some f =>
        cases hres : f ⟨mt, name, desc, labels, buckets, objs, vec⟩ with
        | error e0 => simp [AddMetric, hdup, hname, hft, hres]
        | ok r => simp [AddMetric, hdup, hname, hft, hres] at he

/-- The registry after `AddMetric` is either untouched or extended by
exactly one entry: the declared (non-empty) name bound to the metric the
dispatched handler returned. -/
theorem addMetric_metrics_shape (m : Monitor) (metric : Metric) :
    (AddMetric m metric).snd.metrics = m.metrics ∨
    (∃ f r, promTypeHandler metric.MType = .some f ∧ f metric = .ok r ∧
        metric.Name ≠ "" ∧
        (AddMetric m metric).snd.metrics = (metric.Name, r) :: m.metrics) := by
  rcases metric with ⟨mt, name, desc, labels, buckets, objs, vec⟩
  by_cases hdup : (m.metrics.lookup name).isSome = true
  · left
    simp [AddMetric, hdup]
  · by_cases hname : name = ""
    · subst hname
      left
      simp [AddMetric, hdup]
    · cases hft : promTypeHandler mt with
      | none =>
        left
        simp [AddMetric, hdup, hname, hft]
      | some f =>
        cases hres : f ⟨mt, name, desc, labels, buckets, objs, vec⟩ with
        | error e0 =>
          left
          simp [AddMetric, hdup, hname, hft, hres]
        | ok r =>
          right
          exact ⟨f, r, rfl, hres, hname, by simp [AddMetric, hdup, hname, hft, hres]⟩

/-- C2: `AddMetric` is atomic on failure: whenever it returns an error the
monitor is exactly as before, and from any state whose entries all carry a
collector handle, every entry after the call still carries one. -/
theorem C2_atomicity (m : Monitor) (metric : Metric)
    (hinv : ∀ p ∈ m.metrics, p.2.vec.isSome = true) :
    (∀ e, (AddMetric m metric).fst = .error e → (AddMetric m metric).snd = m) ∧
    (∀ p ∈ (AddMetric m metric).snd.metrics, p.2.vec.isSome = true) := by
  constructor
  · intro e he
    exact addMetric_error_frame m metric e he
  · intro p hp
    rcases addMetric_metrics_shape m metric with h | ⟨f, r, hf, hr, _, h⟩
    · exact hinv p (h ▸ hp)
    · rw [h] at hp
      rcases List.mem_cons.mp hp with rfl | hmem
      · exact handler_sets_vec metric.MType f metric r hf hr
      · exact hinv p hmem

/-- Witness for C2: an empty-name declaration fails on the fresh monitor
and leaves it unchanged, with every stored entry still carrying a handle. -/
theorem C2_atomicity_witness :
    (AddMetric initialMonitor { Name := "" }).snd = initialMonitor ∧
    (∀ p ∈ (AddMetric initialMonitor { Name := "" }).snd.metrics,
        p.2.vec.isSome = true) := by
  have h := C2_atomicity initialMonitor { Name := "" }
      (by
        intro p hp
        rw [show initialMonitor.metrics = [] from rfl] at hp
        cases hp)
  exact ⟨h.1 .emptyName rfl, h.2⟩

/-- C5: the duplicate-name check runs first, so a registered name is
rejected as already existing whatever the other fields are; the empty-name
check runs second, so an unregistered empty name is rejected as empty even
when the kind is invalid. -/
theorem C5_check_order (m : Monitor) (metric : Metric) :
    ((m.metrics.lookup metric.Name).isSome = true →
        (AddMetric m metric).fst = .error (.alreadyExists metric.Name)) ∧
    (m.metrics.lookup metric.Name = .none → metric.Name = "" →
        (AddMetric m metric).fst = .error .emptyName) := by
  rcases metric with ⟨mt, name, desc, labels, buckets, objs, vec⟩
  constructor
  · intro h
    simp [AddMetric, h]
  · intro h h2
    subst h2
    simp [AddMetric, h]

/-- Witness for C5: a duplicate name with an invalid kind still gets the
already-exists error, and an empty name with an invalid kind still gets
the empty-name error. -/
theorem C5_check_order_witness :
    (AddMetric (AddMetric initialMonitor { MType := Counter, Name := "c" }).snd
        { MType := 99, Name := "c" }).fst = .error (.alreadyExists "c") ∧
    (AddMetric initialMonitor { MType := 99, Name := "" }).fst
        = .error .emptyName :=
  ⟨(C5_check_order (AddMetric initialMonitor
        { MType := Counter, Name := "c" }).snd { MType := 99, Name := "c" }).1 rfl,
   (C5_check_order initialMonitor { MType := 99, Name := "" }).2 rfl rfl⟩

/-- C6: registering a Counter or Gauge declaration with a non-empty,
unregistered name succeeds, and looking the name up afterwards returns a
metric with the declared kind and name. -/
theorem C6_roundtrip (m : Monitor) (metric : Metric)
    (hname : metric.Name ≠ "")
    (habs : m.metrics.lookup metric.Name = .none)
    (hkind : metric.MType = Counter ∨ metric.MType = Gauge) :
    (AddMetric m metric).fst = .ok () ∧
    (GetMetric (AddMetric m metric).snd metric.Name).MType = metric.MType ∧
    (GetMetric (AddMetric m metric).snd metric.Name).Name = metric.Name := by
  rcases hkind with h | h
  · have hft : promTypeHandler metric.MType = .some counterHandler := by
      simp [promTypeHandler, h, Counter]
    refine ⟨?_, ?_, ?_⟩ <;>
      simp [AddMetric, habs, hname, hft, counterHandler, GetMetric,
        List.lookup_cons]
  · have hft : promTypeHandler metric.MType = .some gaugeHandler := by
      simp [promTypeHandler, h, Counter, Gauge]
    refine ⟨?_, ?_, ?_⟩ <;>
      simp [AddMetric, habs, hname, hft, gaugeHandler, GetMetric,
        List.lookup_cons]

/-- Witness for C6: the counter declaration of the spec end-to-end
scenario round-trips on the fresh monitor. -/
theorem C6_roundtrip_witness :
    (AddMetric initialMonitor
        { MType := Counter, Name := "http_requests",
          Labels := ["method", "path"] }).fst = .ok () ∧
    (GetMetric (AddMetric initialMonitor
        { MType := Counter, Name := "http_requests",
          Labels := ["method", "path"] }).snd "http_requests").MType = Counter ∧
    (GetMetric (AddMetric initialMonitor
        { MType := Counter, Name := "http_requests",
          Labels := ["method", "path"] }).snd "http_requests").Name
      = "http_requests" :=
  C6_roundtrip initialMonitor
    { MType := Counter, Name := "http_requests", Labels := ["method", "path"] }
    (by decide) rfl (.inl rfl)

/-- C1 counterexample: on the fresh monitor, a Histogram declaration with
no buckets (and a Summary declaration with no objectives) is rejected with
the generic unknown-metric-type error, not with the kind-specific error
the handler itself produced — the handler error is a different value and
is never returned by `AddMetric`. -/
theorem C1_counterexample :
    (AddMetric initialMonitor { MType := Histogram, Name := "req_latency" }).fst
        = .error (.typeNotExisted Histogram) ∧
    histogramHandler { MType := Histogram, Name := "req_latency" }
        = .error (.missingBucketParam "req_latency") ∧
    GoErr.typeNotExisted Histogram ≠ GoErr.missingBucketParam "req_latency" ∧
    (AddMetric initialMonitor { MType := Summary, Name := "s" }).fst
        = .error (.typeNotExisted Summary) ∧
    summaryHandler { MType := Summary, Name := "s" }
        = .error (.missingObjectivesParam "s") ∧
    GoErr.typeNotExisted Summary ≠ GoErr.missingObjectivesParam "s" :=
  ⟨rfl, rfl, by decide, rfl, rfl, by decide⟩

/-- C1 amended: a Histogram declaration without buckets (resp. a Summary
declaration without objectives) under a non-empty unregistered name makes
the handler produce its kind-specific error, but `AddMetric` discards that
error and returns the generic unknown-metric-type error carrying the kind
value; the metric is not added. -/
theorem C1_handler_error_discarded (m : Monitor) (metric : Metric)
    (hname : metric.Name ≠ "")
    (habs : m.metrics.lookup metric.Name = .none)
    (hkind : (metric.MType = Histogram ∧ metric.Buckets = []) ∨
             (metric.MType = Summary ∧ metric.Objectives = [])) :
    AddMetric m metric = (.error (.typeNotExisted metric.MType), m) ∧
    (metric.MType = Histogram →
        histogramHandler metric = .error (.missingBucketParam metric.Name)) ∧
    (metric.MType = Summary →
        summaryHandler metric = .error (.missingObjectivesParam metric.Name)) := by
  rcases hkind with ⟨ht, hb⟩ | ⟨ht, hb⟩
  · have hft : promTypeHandler metric.MType = .some histogramHandler := by
      simp [promTypeHandler, ht, Counter, Gauge, Histogram]
    have hres : histogramHandler metric = .error (.missingBucketParam metric.Name) := by
      simp [histogramHandler, hb]
    refine ⟨by simp [AddMetric, habs, hname, hft, hres], fun _ => hres, fun hs => ?_⟩
    rw [ht] at hs
    exact absurd hs (by decide)
  · have hft : promTypeHandler metric.MType = .some summaryHandler := by
      simp [promTypeHandler, ht, Counter, Gauge, Histogram, Summary]
    have hres : summaryHandler metric = .error (.missingObjectivesParam metric.Name) := by
      simp [summaryHandler, hb]
    refine ⟨by simp [AddMetric, habs, hname, hft, hres], fun hh => ?_, fun _ => hres⟩
    rw [ht] at hh
    exact absurd hh (by decide)

/-- Witness for the amended C1: the bucketless histogram of the spec
scenario gets the generic error while the handler produced the specific
one. -/
theorem C1_handler_error_discarded_witness :
    AddMetric initialMonitor { MType := Histogram, Name := "no_buckets" }
        = (.error (.typeNotExisted Histogram), initialMonitor) ∧
    histogramHandler { MType := Histogram, Name := "no_buckets" }
        = .error (.missingBucketParam "no_buckets") :=
  ⟨(C1_handler_error_discarded initialMonitor
      { MType := Histogram, Name := "no_buckets" }
      (by decide) rfl (.inl ⟨rfl, rfl⟩)).1,
   (C1_handler_error_discarded initialMonitor
      { MType := Histogram, Name := "no_buckets" }
      (by decide) rfl (.inl ⟨rfl, rfl⟩)).2.1 rfl⟩

/-- One API call leaves the empty string out of the registry keys. -/
theorem applyOp_no_empty_key (m : Monitor) (op : Op)
    (h : m.metrics.lookup "" = .none) :
    (applyOp m op).metrics.lookup "" = .none := by
  cases op with
  | add metric =>
    rcases addMetric_metrics_shape m metric with hs | ⟨f, r, _, _, hname, hs⟩
    · show (AddMetric m metric).snd.metrics.lookup "" = .none
      rw [hs]
      exact h
    · show (AddMetric m metric).snd.metrics.lookup "" = .none
      rw [hs, List.lookup_cons]
      simp [beq_false_of_ne (Ne.symm hname), h]
  | setPath p => exact h
  | setExclude ps => exact h
  | setSlow t => exact h
  | setDur d => exact h
  | setPre c p => exact h
  | setSuf c s => exact h

/-- C9: in every reachable monitor state the empty string is not a
registry key, so looking up the empty name always yields the zero-value
sentinel metric. -/
theorem C9_no_empty_key (ops : List Op) :
    (runOps ops).metrics.lookup "" = .none ∧
    GetMetric (runOps ops) ""
      = { MType := None, Name := "", Description := "", Labels := [],
          Buckets := [], Objectives := [], vec := .none } := by
  have key : ∀ (l : List Op) (m : Monitor), m.metrics.lookup "" = .none →
      (l.foldl applyOp m).metrics.lookup "" = .none := by
    intro l
    induction l with
    | nil => exact fun m h => h
    | cons op l ih => exact fun m h => ih _ (applyOp_no_empty_key m op h)
  have h1 : (runOps ops).metrics.lookup "" = .none :=
    key ops initialMonitor rfl
  refine ⟨h1, ?_⟩
  simp [GetMetric, h1]

end GinMetrics
